import Mathlib

/-!
Verification of the announcement store service
(`src/backend/routers/announcements.py`).

The embedding is shallow: instants are modelled as integers on an abstract
timeline (the source's UTC datetimes, identified with their epoch
milliseconds), the document collection is a list of records threaded
through each endpoint in state-passing style, and every endpoint returns
the HTTP outcome together with the post-call store.  A raised
`HTTPException(code, detail)` becomes `Resp.err code detail`; an unhandled
Python exception becomes `Resp.crash`.
-/

namespace Announcements

/-- Outcome of one endpoint call: a successful value, an
`HTTPException(status_code, detail)`, or an unhandled exception. -/
inductive Resp (α : Type) where
  | ok : α → Resp α
  | err : Nat → String → Resp α
  | crash : Resp α
deriving DecidableEq, Repr

/-- A stored announcement document (`doc` built in `create_announcement`,
lines 104-111).  `starts_at` is the optional start instant; a document
created or updated with a null `starts_at` stores `none`. -/
structure Announcement where
  _id : String
  message : String
  starts_at : Option Int
  expires_at : Int
  created_at : Int
  updated_at : Int
deriving DecidableEq, Repr

/-- The response dictionary shape `{id, message, starts_at, expires_at,
created_at, updated_at}` built by every endpoint. -/
structure AnnouncementOut where
  id : String
  message : String
  starts_at : Option Int
  expires_at : Int
  created_at : Int
  updated_at : Int
deriving DecidableEq, Repr

/-- Projection of a stored document to the response shape
(lines 41-48, 59-66, 114-121, 169-176 of the source). -/
def toOut (a : Announcement) : AnnouncementOut :=
  { id := a._id, message := a.message, starts_at := a.starts_at,
    expires_at := a.expires_at, created_at := a.created_at,
    updated_at := a.updated_at }

/-- Modelled from the spec: the persistence collaborator (`database.py`,
not under `src/`) is "a keyed record collection supporting find-by-id,
find-all with filter+sort, insert, partial-field update, delete-by-id".
The collection is a list of documents keyed by `_id`. -/
abbrev Store : Type := List Announcement

/-- A JSON request body restricted to the three fields the handlers read.
The outer `Option` is key presence (`"message" in body`), the inner
`Option` is JSON null vs. a string value. -/
structure Body where
  message : Option (Option String) := none
  starts_at : Option (Option String) := none
  expires_at : Option (Option String) := none
deriving DecidableEq, Repr

/-- Whether a year is a leap year, as Python's calendar has it. -/
def isLeap (y : Nat) : Bool :=
  (y % 4 == 0 && y % 100 != 0) || y % 400 == 0

/-- Days in a month of a given year. -/
def daysInMonth (y m : Nat) : Nat :=
  if m == 2 then (if isLeap y then 29 else 28)
  else if m == 4 || m == 6 || m == 9 || m == 11 then 30
  else 31

/-- Model of Python's `str.strip()` with no argument: removes leading and
trailing whitespace. -/
def strip (s : String) : String :=
  String.mk
    (((s.toList.dropWhile Char.isWhitespace).reverse.dropWhile
        Char.isWhitespace).reverse)

/-- Decimal value of a digit character, if it is one. -/
def digitVal (c : Char) : Option Nat :=
  if c.isDigit then some (c.toNat - 48) else none

/-- Model of the standard-library `datetime.fromisoformat`, restricted to
the naive form `YYYY-MM-DDTHH:MM:SS`; a valid string is mapped to the
integer `YYYYMMDDHHMMSS`, which is monotone in the instant it denotes.
Any other string fails (`none`).  The source's normalization of naive
datetimes to UTC (lines 91-92, 149-150) is the identity here, since only
naive forms are accepted. -/
def fromisoformat (s : String) : Option Int :=
  match s.toList with
  | [y1, y2, y3, y4, '-', m1, m2, '-', d1, d2, 'T',
     h1, h2, ':', n1, n2, ':', s1, s2] =>
    match digitVal y1, digitVal y2, digitVal y3, digitVal y4,
          digitVal m1, digitVal m2, digitVal d1, digitVal d2,
          digitVal h1, digitVal h2, digitVal n1, digitVal n2,
          digitVal s1, digitVal s2 with
    | some a, some b, some c, some d, some e, some f, some g, some h,
      some i, some j, some k, some l, some m, some n =>
      let Y := a * 1000 + b * 100 + c * 10 + d
      let M := e * 10 + f
      let D := g * 10 + h
      let H := i * 10 + j
      let N := k * 10 + l
      let S := m * 10 + n
      if 1 ≤ M && M ≤ 12 && 1 ≤ D && D ≤ daysInMonth Y M &&
         H ≤ 23 && N ≤ 59 && S ≤ 59 then
        some (Int.ofNat
          (Y * 10000000000 + M * 100000000 + D * 1000000 +
           H * 10000 + N * 100 + S))
      else none
    | _, _, _, _, _, _, _, _, _, _, _, _, _, _ => none
  | _ => none

/-- `_require_teacher` (lines 17-23): a falsy username (absent or the
empty string) is 401 "Authentication required"; a username with no record
in the teacher store is 401 "Invalid credentials".  `none` means the
check passed. -/
def require_teacher (teachers : List String) (username : Option String) :
    Option (Nat × String) :=
  match username with
  | none => some (401, "Authentication required")
  | some u =>
    if u = "" then some (401, "Authentication required")
    else if teachers.contains u then none
    else some (401, "Invalid credentials")

/-- `parse_dt` inside `create_announcement` (lines 85-95): a falsy value
(absent, null, or the empty string) yields `none` without error; any
other string must parse, else 400 "Invalid datetime format". -/
def parse_dt (value : Option String) : Except String (Option Int) :=
  match value with
  | none => .ok none
  | some s =>
    if s = "" then .ok none
    else
      match fromisoformat s with
      | some t => .ok (some t)
      | none => .error "Invalid datetime format"

/-- `parse_dt_optional` inside `update_announcement` (lines 144-153): only
`None` short-circuits; every string, the empty one included, is handed to
`fromisoformat`. -/
def parse_dt_optional (value : Option String) : Except String (Option Int) :=
  match value with
  | none => .ok none
  | some s =>
    match fromisoformat s with
    | some t => .ok (some t)
    | none => .error "Invalid datetime format"

/-- The `message` patch validation of `update_announcement` (lines
138-142): only when the key is present, `(body.get("message") or "")` is
trimmed and rejected if empty. -/
def validate_message (mv : Option (Option String)) :
    Except String (Option String) :=
  match mv with
  | none => .ok none
  | some v =>
    let m := strip (v.getD "")
    if m = "" then .error "Message is required" else .ok (some m)

/-- The `starts_at` patch handling of `update_announcement` (lines
155-156): a present null clears the field; a present string must parse. -/
def validate_starts (sv : Option (Option String)) :
    Except String (Option (Option Int)) :=
  match sv with
  | none => .ok none
  | some v => (parse_dt_optional v).map some

/-- The `expires_at` patch handling of `update_announcement` (lines
158-162): a present value must parse to a (truthy) datetime; null is
rejected as "Expiration is required". -/
def validate_expires (ev : Option (Option String)) :
    Except String (Option Int) :=
  match ev with
  | none => .ok none
  | some v =>
    match parse_dt_optional v with
    | .error e => .error e
    | .ok none => .error "Expiration is required"
    | .ok (some t) => .ok (some t)

/-- `announcements_collection.find_one({"_id": id})`. -/
def find_one (announcement_id : String) (store : Store) : Option Announcement :=
  store.find? (fun a => a._id == announcement_id)

/-- Modelled from the spec: insertion into the keyed record collection
(`database.py` is not under `src/`); inserting a document whose key is
already present fails, keys being unique in a keyed collection.  A failed
insert is an unhandled exception at the call site. -/
def insert_one (doc : Announcement) (store : Store) : Option Store :=
  if store.any (fun a => a._id == doc._id) then none
  else some (store ++ [doc])

/-- The `updates` dictionary accumulated by `update_announcement`
(lines 136-164): each document field is present iff the patch mentioned
it; `updated_at` is always present. -/
structure UpdateSet where
  message : Option String := none
  starts_at : Option (Option Int) := none
  expires_at : Option Int := none
  updated_at : Int
deriving DecidableEq, Repr

/-- Effect of `{"$set": updates}` on one document: exactly the fields
present in `updates` are overwritten. -/
def applySet (u : UpdateSet) (a : Announcement) : Announcement :=
  { a with
    message := u.message.getD a.message
    starts_at := (match u.starts_at with | some v => v | none => a.starts_at)
    expires_at := u.expires_at.getD a.expires_at
    updated_at := u.updated_at }

/-- `announcements_collection.update_one({"_id": id}, {"$set": updates})`:
partial-field update of the documents matching the key. -/
def update_one (announcement_id : String) (u : UpdateSet) (store : Store) :
    Store :=
  store.map (fun a => if a._id == announcement_id then applySet u a else a)

/-- `announcements_collection.delete_one({"_id": id})`: removes the first
matching document and reports `deleted_count`. -/
def delete_one (announcement_id : String) : Store → Store × Nat
  | [] => ([], 0)
  | a :: rest =>
    if a._id == announcement_id then (rest, 1)
    else
      let r := delete_one announcement_id rest
      (a :: r.1, r.2)

/-- Ordering used for `.sort("created_at", 1)`. -/
def byCreatedAsc (x y : Announcement) : Prop := x.created_at ≤ y.created_at

/-- Ordering used for `.sort("created_at", -1)`. -/
def byCreatedDesc (x y : Announcement) : Prop := y.created_at ≤ x.created_at

instance : DecidableRel byCreatedAsc := fun x y => by
  unfold byCreatedAsc; infer_instance

instance : DecidableRel byCreatedDesc := fun x y => by
  unfold byCreatedDesc; infer_instance

instance : IsTotal Announcement byCreatedAsc :=
  ⟨fun a b => Int.le_total a.created_at b.created_at⟩

instance : IsTrans Announcement byCreatedAsc :=
  ⟨fun _ _ _ h h' => le_trans h h'⟩

instance : IsTotal Announcement byCreatedDesc :=
  ⟨fun a b => Int.le_total b.created_at a.created_at⟩

instance : IsTrans Announcement byCreatedDesc :=
  ⟨fun _ _ _ h h' => le_trans h' h⟩

/-- Modelled from the spec: evaluation of the active query of
`get_active_announcements` (lines 30-38) by the collection engine
(`database.py` is not under `src/`).  Per the spec, the selection
predicate is "(`starts_at` is absent OR `starts_at <= now`) AND
`expires_at > now`", where an absent `starts_at` "means always eligible
to start". -/
def activeQuery (now : Int) (a : Announcement) : Bool :=
  (match a.starts_at with
   | none => true
   | some t => decide (t ≤ now)) && decide (now < a.expires_at)

/-- `GET /active` (lines 26-50): filter by the active window, sort
ascending by `created_at`, project to the response shape.  No
authentication parameter exists on this endpoint and no error is ever
returned. -/
def get_active_announcements (now : Int) (store : Store) :
    List AnnouncementOut :=
  (((store.filter (activeQuery now)).insertionSort byCreatedAsc).map toOut)

/-- `GET /announcements` (lines 53-67): authenticate, then every document
sorted descending by `created_at`, with no time filtering. -/
def list_announcements (teachers : List String) (username : Option String)
    (store : Store) : Resp (List AnnouncementOut) :=
  match require_teacher teachers username with
  | some e => .err e.1 e.2
  | none => .ok ((store.insertionSort byCreatedDesc).map toOut)

/-- `POST /announcements` (lines 70-121), in state-passing style: the
returned store is the collection after the call.  A body whose `message`
key holds null makes `.get("message", "").strip()` call `.strip()` on
`None`, an unhandled exception (`crash`). -/
def create_announcement (teachers : List String) (username : Option String)
    (body : Body) (now : Int) (store : Store) :
    Resp AnnouncementOut × Store :=
  match require_teacher teachers username with
  | some e => (.err e.1 e.2, store)
  | none =>
    match body.message with
    | some none => (.crash, store)
    | mo =>
      let message := strip (match mo with | some (some s) => s | _ => "")
      if message = "" then (.err 400 "Message is required", store)
      else
        let expires_at_raw : Option String := body.expires_at.bind (fun v => v)
        let starts_at_raw : Option String := body.starts_at.bind (fun v => v)
        match parse_dt expires_at_raw with
        | .error e => (.err 400 e, store)
        | .ok expOpt =>
          match expOpt with
          | none => (.err 400 "Expiration is required", store)
          | some expires_at =>
            match parse_dt starts_at_raw with
            | .error e => (.err 400 e, store)
            | .ok starts_at =>
              let doc : Announcement :=
                { _id := "ann-" ++ toString now
                  message := message
                  starts_at := starts_at
                  expires_at := expires_at
                  created_at := now
                  updated_at := now }
              match insert_one doc store with
              | none => (.crash, store)
              | some store2 => (.ok (toOut doc), store2)

/-- `PUT /announcements/{id}` (lines 124-176), in state-passing style.
Validation of the patch happens before `update_one`; a null `message`
in the patch is defused by `(body.get("message") or "")` and rejected as
empty. -/
def update_announcement (teachers : List String) (username : Option String)
    (announcement_id : String) (body : Body) (now : Int) (store : Store) :
    Resp AnnouncementOut × Store :=
  match require_teacher teachers username with
  | some e => (.err e.1 e.2, store)
  | none =>
    match find_one announcement_id store with
    | none => (.err 404 "Announcement not found", store)
    | some _doc =>
      match validate_message body.message with
      | .error e => (.err 400 e, store)
      | .ok msgUpd =>
        match validate_starts body.starts_at with
        | .error e => (.err 400 e, store)
        | .ok startsUpd =>
          match validate_expires body.expires_at with
          | .error e => (.err 400 e, store)
          | .ok expUpd =>
            let u : UpdateSet :=
              { message := msgUpd, starts_at := startsUpd,
                expires_at := expUpd, updated_at := now }
            let store2 := update_one announcement_id u store
            match find_one announcement_id store2 with
            | none => (.crash, store2)
            | some new_doc => (.ok (toOut new_doc), store2)

/-- `DELETE /announcements/{id}` (lines 179-186), in state-passing
style. -/
def delete_announcement (teachers : List String) (username : Option String)
    (announcement_id : String) (store : Store) : Resp String × Store :=
  match require_teacher teachers username with
  | some e => (.err e.1 e.2, store)
  | none =>
    let res := delete_one announcement_id store
    if res.2 = 0 then (.err 404 "Announcement not found", res.1)
    else (.ok "Announcement deleted", res.1)

/-- One service call, viewed only through its effect on the store. -/
inductive Step : Store → Store → Prop where
  | create : ∀ (teachers : List String) (username : Option String)
      (body : Body) (now : Int) (store : Store),
      Step store (create_announcement teachers username body now store).2
  | update : ∀ (teachers : List String) (username : Option String)
      (announcement_id : String) (body : Body) (now : Int) (store : Store),
      Step store
        (update_announcement teachers username announcement_id body now
          store).2
  | delete : ∀ (teachers : List String) (username : Option String)
      (announcement_id : String) (store : Store),
      Step store (delete_announcement teachers username announcement_id
        store).2

/-- Store states reachable from the empty collection through service
calls. -/
inductive Reachable : Store → Prop where
  | nil : Reachable []
  | step : ∀ {s s' : Store}, Reachable s → Step s s' → Reachable s'

/-- The two store invariants the service maintains: document keys are
pairwise distinct, and every key is `"ann-"` followed by the record's
creation instant. -/
def GoodStore (s : Store) : Prop :=
  (s.map (fun a => a._id)).Nodup ∧
  ∀ a ∈ s, a._id = "ann-" ++ toString a.created_at

/-- The detail string of the 401 raised by `_require_teacher` for a given
credential (meaningful only when the check fails). -/
def authDetail (teachers : List String) (username : Option String) : String :=
  ((require_teacher teachers username).getD (401, "")).2

/-- Sample stored announcement used in concrete evaluations. -/
def wAnn : Announcement :=
  { _id := "ann-5", message := "hi", starts_at := none,
    expires_at := 100, created_at := 5, updated_at := 5 }

/-- Sample stored announcement with a start instant, used in concrete
evaluations. -/
def wAnn2 : Announcement :=
  { _id := "ann-7", message := "yo", starts_at := some 50,
    expires_at := 100, created_at := 7, updated_at := 7 }

/-! ## Helper lemmas -/

theorem toOut_inj {a b : Announcement} (h : toOut a = toOut b) : a = b := by
  cases a; cases b
  simpa [toOut, AnnouncementOut.mk.injEq, Announcement.mk.injEq] using h

theorem applySet_id (u : UpdateSet) (a : Announcement) :
    (applySet u a)._id = a._id := rfl

theorem applySet_created (u : UpdateSet) (a : Announcement) :
    (applySet u a).created_at = a.created_at := rfl

theorem mem_active_of {now : Int} {store : Store} {a : Announcement}
    (h : a ∈ store) (hq : activeQuery now a = true) :
    toOut a ∈ get_active_announcements now store := by
  unfold get_active_announcements
  exact List.mem_map_of_mem toOut
    ((List.mem_insertionSort byCreatedAsc).mpr (List.mem_filter.mpr ⟨h, hq⟩))

theorem not_mem_active_of {now : Int} {store : Store} {a : Announcement}
    (hq : activeQuery now a = false) :
    toOut a ∉ get_active_announcements now store := by
  intro hmem
  unfold get_active_announcements at hmem
  rcases List.mem_map.mp hmem with ⟨b, hb, hba⟩
  have hbf := (List.mem_insertionSort byCreatedAsc).mp hb
  have hqt := List.of_mem_filter hbf
  cases toOut_inj hba
  rw [hq] at hqt
  exact Bool.false_ne_true hqt

/-! ### `create_announcement` branch lemmas -/

theorem strip_empty : strip "" = "" := rfl

theorem create_auth {te : List String} {u : Option String}
    {e : Nat × String} (he : require_teacher te u = some e)
    (b : Body) (now : Int) (store : Store) :
    create_announcement te u b now store = (.err e.1 e.2, store) := by
  unfold create_announcement; rw [he]

theorem create_null_message {te : List String} {u : Option String} {b : Body}
    (hreq : require_teacher te u = none) (hm : b.message = some none)
    (now : Int) (store : Store) :
    create_announcement te u b now store = (.crash, store) := by
  unfold create_announcement; rw [hreq, hm]

theorem create_msg_absent {te : List String} {u : Option String} {b : Body}
    (hreq : require_teacher te u = none) (hm : b.message = none)
    (now : Int) (store : Store) :
    create_announcement te u b now store =
      (.err 400 "Message is required", store) := by
  unfold create_announcement; rw [hreq, hm]; simp [strip_empty]

theorem create_msg_empty {te : List String} {u : Option String} {b : Body}
    {s : String} (hreq : require_teacher te u = none)
    (hm : b.message = some (some s)) (hst : strip s = "")
    (now : Int) (store : Store) :
    create_announcement te u b now store =
      (.err 400 "Message is required", store) := by
  unfold create_announcement; rw [hreq, hm]; simp [hst]

theorem create_expires_err {te : List String} {u : Option String} {b : Body}
    {s e : String} (hreq : require_teacher te u = none)
    (hm : b.message = some (some s)) (hst : strip s ≠ "")
    (hp : parse_dt (b.expires_at.bind (fun v => v)) = .error e)
    (now : Int) (store : Store) :
    create_announcement te u b now store = (.err 400 e, store) := by
  unfold create_announcement; rw [hreq, hm]; simp [hst, hp]

theorem create_expires_missing {te : List String} {u : Option String}
    {b : Body} {s : String} (hreq : require_teacher te u = none)
    (hm : b.message = some (some s)) (hst : strip s ≠ "")
    (hp : parse_dt (b.expires_at.bind (fun v => v)) = .ok none)
    (now : Int) (store : Store) :
    create_announcement te u b now store =
      (.err 400 "Expiration is required", store) := by
  unfold create_announcement; rw [hreq, hm]; simp [hst, hp]

theorem create_starts_err {te : List String} {u : Option String} {b : Body}
    {s e : String} {texp : Int} (hreq : require_teacher te u = none)
    (hm : b.message = some (some s)) (hst : strip s ≠ "")
    (hpe : parse_dt (b.expires_at.bind (fun v => v)) = .ok (some texp))
    (hps : parse_dt (b.starts_at.bind (fun v => v)) = .error e)
    (now : Int) (store : Store) :
    create_announcement te u b now store = (.err 400 e, store) := by
  unfold create_announcement; rw [hreq, hm]; simp [hst, hpe, hps]

theorem create_dup {te : List String} {u : Option String} {b : Body}
    {s : String} {texp : Int} {st : Option Int} {now : Int} {store : Store}
    (hreq : require_teacher te u = none)
    (hm : b.message = some (some s)) (hst : strip s ≠ "")
    (hpe : parse_dt (b.expires_at.bind (fun v => v)) = .ok (some texp))
    (hps : parse_dt (b.starts_at.bind (fun v => v)) = .ok st)
    (hins : store.any (fun a => a._id == "ann-" ++ toString now) = true) :
    create_announcement te u b now store = (.crash, store) := by
  unfold create_announcement insert_one
  rw [hreq, hm]; simp [hst, hpe, hps, hins]

theorem create_success {te : List String} {u : Option String} {b : Body}
    {s : String} {texp : Int} {st : Option Int} {now : Int} {store : Store}
    (hreq : require_teacher te u = none)
    (hm : b.message = some (some s)) (hst : strip s ≠ "")
    (hpe : parse_dt (b.expires_at.bind (fun v => v)) = .ok (some texp))
    (hps : parse_dt (b.starts_at.bind (fun v => v)) = .ok st)
    (hins : store.any (fun a => a._id == "ann-" ++ toString now) = false) :
    create_announcement te u b now store =
      (.ok (toOut { _id := "ann-" ++ toString now, message := strip s,
                    starts_at := st, expires_at := texp, created_at := now,
                    updated_at := now }),
       store ++ [{ _id := "ann-" ++ toString now, message := strip s,
                   starts_at := st, expires_at := texp, created_at := now,
                   updated_at := now }]) := by
  unfold create_announcement insert_one
  rw [hreq, hm]; simp [hst, hpe, hps, hins]

/-! ### `update_announcement` branch lemmas -/

theorem update_auth {te : List String} {u : Option String}
    {e : Nat × String} (he : require_teacher te u = some e)
    (aid : String) (b : Body) (now : Int) (store : Store) :
    update_announcement te u aid b now store = (.err e.1 e.2, store) := by
  unfold update_announcement; rw [he]

theorem update_notfound {te : List String} {u : Option String}
    {aid : String} {store : Store} (hreq : require_teacher te u = none)
    (hf : find_one aid store = none) (b : Body) (now : Int) :
    update_announcement te u aid b now store =
      (.err 404 "Announcement not found", store) := by
  unfold update_announcement; rw [hreq, hf]

theorem update_msg_err {te : List String} {u : Option String}
    {aid : String} {store : Store} {d : Announcement} {b : Body} {e : String}
    (hreq : require_teacher te u = none) (hf : find_one aid store = some d)
    (hm : validate_message b.message = .error e) (now : Int) :
    update_announcement te u aid b now store = (.err 400 e, store) := by
  unfold update_announcement; rw [hreq, hf, hm]

theorem update_starts_err {te : List String} {u : Option String}
    {aid : String} {store : Store} {d : Announcement} {b : Body}
    {mu : Option String} {e : String}
    (hreq : require_teacher te u = none) (hf : find_one aid store = some d)
    (hm : validate_message b.message = .ok mu)
    (hs : validate_starts b.starts_at = .error e) (now : Int) :
    update_announcement te u aid b now store = (.err 400 e, store) := by
  unfold update_announcement; rw [hreq, hf, hm, hs]

theorem update_expires_err {te : List String} {u : Option String}
    {aid : String} {store : Store} {d : Announcement} {b : Body}
    {mu : Option String} {su : Option (Option Int)} {e : String}
    (hreq : require_teacher te u = none) (hf : find_one aid store = some d)
    (hm : validate_message b.message = .ok mu)
    (hs : validate_starts b.starts_at = .ok su)
    (he : validate_expires b.expires_at = .error e) (now : Int) :
    update_announcement te u aid b now store = (.err 400 e, store) := by
  unfold update_announcement; rw [hreq, hf, hm, hs, he]

theorem find_one_update_one {aid : String} {store : Store} {d : Announcement}
    (u : UpdateSet) (h : find_one aid store = some d) :
    find_one aid (update_one aid u store) = some (applySet u d) := by
  unfold find_one update_one at *
  rw [List.find?_map]
  have hp : ((fun a : Announcement => a._id == aid) ∘
      (fun a => if a._id == aid then applySet u a else a)) =
      (fun a : Announcement => a._id == aid) := by
    funext a
    by_cases hc : a._id = aid
    · simp [hc, applySet_id]
    · simp [hc]
  rw [hp, h]
  have hd := List.find?_some h
  simp only [beq_iff_eq] at hd
  simp [hd]

theorem update_success {te : List String} {u : Option String}
    {aid : String} {store : Store} {d : Announcement} {b : Body}
    {mu : Option String} {su : Option (Option Int)} {eu : Option Int}
    (hreq : require_teacher te u = none) (hf : find_one aid store = some d)
    (hm : validate_message b.message = .ok mu)
    (hs : validate_starts b.starts_at = .ok su)
    (he : validate_expires b.expires_at = .ok eu) (now : Int) :
    update_announcement te u aid b now store =
      (.ok (toOut (applySet { message := mu, starts_at := su,
                              expires_at := eu, updated_at := now } d)),
       update_one aid { message := mu, starts_at := su,
                        expires_at := eu, updated_at := now } store) := by
  unfold update_announcement
  rw [hreq, hf, hm, hs, he]
  simp only []
  rw [find_one_update_one _ hf]

/-! ### `delete_announcement` and `delete_one` lemmas -/

theorem delete_auth {te : List String} {u : Option String}
    {e : Nat × String} (he : require_teacher te u = some e)
    (aid : String) (store : Store) :
    delete_announcement te u aid store = (.err e.1 e.2, store) := by
  unfold delete_announcement; rw [he]

theorem delete_one_zero_iff (aid : String) :
    ∀ store : Store, (delete_one aid store).2 = 0 ↔ find_one aid store = none := by
  intro store
  induction store with
  | nil => simp [delete_one, find_one]
  | cons a rest ih =>
    cases hc : a._id == aid with
    | true => simp [delete_one, find_one, List.find?_cons, hc]
    | false =>
      simp only [find_one] at ih
      simp [delete_one, find_one, List.find?_cons, hc, ih]

theorem delete_one_of_none {aid : String} {store : Store}
    (h : find_one aid store = none) : delete_one aid store = (store, 0) := by
  induction store with
  | nil => rfl
  | cons a rest ih =>
    unfold find_one at h ih
    rw [List.find?_cons] at h
    cases hc : a._id == aid with
    | true => rw [hc] at h; simp at h
    | false =>
      rw [hc] at h
      simp only [] at h
      simp [delete_one, hc, ih h]

theorem delete_one_sublist (aid : String) :
    ∀ store : Store, List.Sublist (delete_one aid store).1 store := by
  intro store
  induction store with
  | nil => simp [delete_one]
  | cons a rest ih =>
    cases hc : a._id == aid with
    | true =>
      have e1 : delete_one aid (a :: rest) = (rest, 1) := by
        simp [delete_one, hc]
      rw [e1]
      exact List.sublist_cons_self a rest
    | false =>
      have e1 : delete_one aid (a :: rest) =
          (a :: (delete_one aid rest).1, (delete_one aid rest).2) := by
        simp [delete_one, hc]
      rw [e1]
      exact List.Sublist.cons₂ a ih

theorem delete_one_find {aid : String} {store : Store}
    (h : (store.map (fun a => a._id)).Nodup) :
    find_one aid (delete_one aid store).1 = none := by
  induction store with
  | nil => rfl
  | cons a rest ih =>
    rw [List.map_cons, List.nodup_cons] at h
    cases hc : a._id == aid with
    | true =>
      have e1 : delete_one aid (a :: rest) = (rest, 1) := by
        simp [delete_one, hc]
      rw [e1]
      unfold find_one
      rw [List.find?_eq_none]
      intro x hx hxp
      simp only [beq_iff_eq] at hc hxp
      exact h.1 (by rw [hc, ← hxp]; exact List.mem_map_of_mem _ hx)
    | false =>
      have e1 : delete_one aid (a :: rest) =
          (a :: (delete_one aid rest).1, (delete_one aid rest).2) := by
        simp [delete_one, hc]
      rw [e1]
      unfold find_one
      rw [List.find?_cons]
      simp only [hc]
      exact ih h.2

/-! ### Store-shape lemmas -/

theorem update_one_ids (aid : String) (us : UpdateSet) (store : Store) :
    (update_one aid us store).map (fun a => a._id) =
      store.map (fun a => a._id) := by
  unfold update_one
  rw [List.map_map]
  apply List.map_congr_left
  intro a _
  by_cases hc : a._id = aid <;> simp [hc, applySet_id]

theorem update_one_pairs (aid : String) (us : UpdateSet) (store : Store) :
    (update_one aid us store).map (fun a => (a._id, a.created_at)) =
      store.map (fun a => (a._id, a.created_at)) := by
  unfold update_one
  rw [List.map_map]
  apply List.map_congr_left
  intro a _
  by_cases hc : a._id = aid <;> simp [hc, applySet_id, applySet_created]

theorem create_post_store (te : List String) (u : Option String) (b : Body)
    (now : Int) (store : Store) :
    (create_announcement te u b now store).2 = store ∨
    ∃ doc : Announcement, doc.created_at = now ∧
      doc._id = "ann-" ++ toString now ∧
      store.any (fun a => a._id == doc._id) = false ∧
      (create_announcement te u b now store).2 = store ++ [doc] := by
  cases hreq : require_teacher te u with
  | some e => left; rw [create_auth hreq]
  | none =>
    cases hm : b.message with
    | none => left; rw [create_msg_absent hreq hm]
    | some mv =>
      cases mv with
      | none => left; rw [create_null_message hreq hm]
      | some s =>
        by_cases hst : strip s = ""
        · left; rw [create_msg_empty hreq hm hst]
        · cases hpe : parse_dt (b.expires_at.bind (fun v => v)) with
          | error e => left; rw [create_expires_err hreq hm hst hpe]
          | ok eo =>
            cases eo with
            | none => left; rw [create_expires_missing hreq hm hst hpe]
            | some texp =>
              cases hps : parse_dt (b.starts_at.bind (fun v => v)) with
              | error e => left; rw [create_starts_err hreq hm hst hpe hps]
              | ok st =>
                cases hins :
                    store.any (fun a => a._id == "ann-" ++ toString now) with
                | true => left; rw [create_dup hreq hm hst hpe hps hins]
                | false =>
                  right
                  refine ⟨{ _id := "ann-" ++ toString now, message := strip s,
                            starts_at := st, expires_at := texp,
                            created_at := now, updated_at := now },
                          rfl, rfl, hins, ?_⟩
                  rw [create_success hreq hm hst hpe hps hins]

theorem create_ok_inv {te : List String} {u : Option String} {b : Body}
    {now : Int} {store : Store} {out : AnnouncementOut}
    (h : (create_announcement te u b now store).1 = .ok out) :
    ∃ (s : String) (texp : Int) (st : Option Int),
      require_teacher te u = none ∧ b.message = some (some s) ∧
      strip s ≠ "" ∧
      parse_dt (b.expires_at.bind (fun v => v)) = .ok (some texp) ∧
      parse_dt (b.starts_at.bind (fun v => v)) = .ok st ∧
      store.any (fun a => a._id == "ann-" ++ toString now) = false ∧
      out = toOut { _id := "ann-" ++ toString now, message := strip s,
                    starts_at := st, expires_at := texp,
                    created_at := now, updated_at := now } ∧
      (create_announcement te u b now store).2 =
        store ++ [{ _id := "ann-" ++ toString now, message := strip s,
                    starts_at := st, expires_at := texp,
                    created_at := now, updated_at := now }] := by
  cases hreq : require_teacher te u with
  | some e => rw [create_auth hreq] at h; simp at h
  | none =>
    cases hm : b.message with
    | none => rw [create_msg_absent hreq hm] at h; simp at h
    | some mv =>
      cases mv with
      | none => rw [create_null_message hreq hm] at h; simp at h
      | some s =>
        by_cases hst : strip s = ""
        · rw [create_msg_empty hreq hm hst] at h; simp at h
        · cases hpe : parse_dt (b.expires_at.bind (fun v => v)) with
          | error e => rw [create_expires_err hreq hm hst hpe] at h; simp at h
          | ok eo =>
            cases eo with
            | none =>
              rw [create_expires_missing hreq hm hst hpe] at h; simp at h
            | some texp =>
              cases hps : parse_dt (b.starts_at.bind (fun v => v)) with
              | error e =>
                rw [create_starts_err hreq hm hst hpe hps] at h; simp at h
              | ok st =>
                cases hins :
                    store.any (fun a => a._id == "ann-" ++ toString now) with
                | true => rw [create_dup hreq hm hst hpe hps hins] at h; simp at h
                | false =>
                  rw [create_success hreq hm hst hpe hps hins] at h
                  simp only [Resp.ok.injEq] at h
                  refine ⟨s, texp, st, rfl, rfl, hst, rfl, rfl, rfl,
                          h.symm, ?_⟩
                  rw [create_success hreq hm hst hpe hps hins]

theorem update_post (te : List String) (u : Option String) (aid : String)
    (b : Body) (now : Int) (store : Store) :
    (update_announcement te u aid b now store).2 = store ∨
    ((∃ us : UpdateSet,
        (update_announcement te u aid b now store).2 =
          update_one aid us store) ∧
     ∃ out, (update_announcement te u aid b now store).1 = .ok out) := by
  cases hreq : require_teacher te u with
  | some e => left; rw [update_auth hreq]
  | none =>
    cases hf : find_one aid store with
    | none => left; rw [update_notfound hreq hf]
    | some d =>
      cases hm : validate_message b.message with
      | error e => left; rw [update_msg_err hreq hf hm]
      | ok mu =>
        cases hs : validate_starts b.starts_at with
        | error e => left; rw [update_starts_err hreq hf hm hs]
        | ok su =>
          cases he : validate_expires b.expires_at with
          | error e => left; rw [update_expires_err hreq hf hm hs he]
          | ok eu =>
            right
            exact ⟨⟨_, by rw [update_success hreq hf hm hs he]⟩,
                   ⟨_, by rw [update_success hreq hf hm hs he]⟩⟩

theorem delete_post (te : List String) (u : Option String) (aid : String)
    (store : Store) :
    (delete_announcement te u aid store).2 = store ∨
    (delete_announcement te u aid store).2 = (delete_one aid store).1 := by
  cases hreq : require_teacher te u with
  | some e => left; rw [delete_auth hreq]
  | none =>
    right
    unfold delete_announcement
    rw [hreq]
    by_cases h0 : (delete_one aid store).2 = 0
    · simp [h0]
    · simp [h0]

theorem require_teacher_bad {teachers : List String} {username : Option String}
    (h : username = none ∨ username = some "" ∨
         ∃ u, username = some u ∧ u ∉ teachers) :
    ∃ d : String, require_teacher teachers username = some (401, d) := by
  rcases h with h | h | ⟨u, hu, hmem⟩
  · exact ⟨"Authentication required", by rw [h]; rfl⟩
  · exact ⟨"Authentication required", by rw [h]; rfl⟩
  · subst hu
    by_cases he : u = ""
    · exact ⟨"Authentication required", by simp [require_teacher, he]⟩
    · refine ⟨"Invalid credentials", ?_⟩
      simp [require_teacher, he, hmem]

theorem delete_notfound {te : List String} {u : Option String}
    {aid : String} {store : Store} (hreq : require_teacher te u = none)
    (hf : find_one aid store = none) :
    delete_announcement te u aid store =
      (.err 404 "Announcement not found", store) := by
  unfold delete_announcement
  rw [hreq, delete_one_of_none hf]
  rfl

theorem delete_found {te : List String} {u : Option String}
    {aid : String} {store : Store} (hreq : require_teacher te u = none)
    (h0 : (delete_one aid store).2 ≠ 0) :
    delete_announcement te u aid store =
      (.ok "Announcement deleted", (delete_one aid store).1) := by
  unfold delete_announcement
  rw [hreq]
  simp [h0]

/-! ### Invariant preservation -/

theorem goodStore_create (te : List String) (u : Option String) (b : Body)
    (now : Int) (store : Store) (hg : GoodStore store) :
    GoodStore (create_announcement te u b now store).2 := by
  rcases create_post_store te u b now store with h | ⟨doc, hca, hid, hany, h⟩
  · rw [h]; exact hg
  · rw [h]
    constructor
    · rw [List.map_append]
      rw [List.nodup_append]
      refine ⟨hg.1, List.nodup_singleton _, ?_⟩
      intro x hx1 hx2
      rcases List.mem_map.mp hx1 with ⟨a, ha, hax⟩
      have hne := List.any_eq_false.mp hany a ha
      rw [List.map_cons, List.map_nil, List.mem_singleton] at hx2
      exact hne (by rw [beq_iff_eq, hax, hx2])
    · intro a ha
      rcases List.mem_append.mp ha with h1 | h2
      · exact hg.2 a h1
      · rw [List.mem_singleton] at h2
        subst h2
        rw [hid, hca]

theorem goodStore_update (te : List String) (u : Option String)
    (aid : String) (b : Body) (now : Int) (store : Store)
    (hg : GoodStore store) :
    GoodStore (update_announcement te u aid b now store).2 := by
  rcases update_post te u aid b now store with h | ⟨⟨us, h⟩, _⟩
  · rw [h]; exact hg
  · rw [h]
    constructor
    · rw [update_one_ids]; exact hg.1
    · intro a ha
      unfold update_one at ha
      rcases List.mem_map.mp ha with ⟨x, hx, hxa⟩
      by_cases hc : x._id = aid
      · have hax : a = applySet us x := by rw [← hxa]; simp [hc]
        rw [hax, applySet_id, applySet_created]
        exact hg.2 x hx
      · have hax : a = x := by rw [← hxa]; simp [hc]
        rw [hax]
        exact hg.2 x hx

theorem goodStore_delete (te : List String) (u : Option String)
    (aid : String) (store : Store) (hg : GoodStore store) :
    GoodStore (delete_announcement te u aid store).2 := by
  rcases delete_post te u aid store with h | h
  · rw [h]; exact hg
  · rw [h]
    have hsub := delete_one_sublist aid store
    constructor
    · exact List.Nodup.sublist (List.Sublist.map _ hsub) hg.1
    · intro a ha
      exact hg.2 a (hsub.subset ha)

theorem goodStore_reachable {s : Store} (h : Reachable s) : GoodStore s := by
  induction h with
  | nil => exact ⟨List.nodup_nil, fun a ha => absurd ha (List.not_mem_nil a)⟩
  | step hr hstep ih =>
    cases hstep with
    | create te u b now => exact goodStore_create te u b now _ ih
    | update te u aid b now => exact goodStore_update te u aid b now _ ih
    | delete te u aid => exact goodStore_delete te u aid _ ih

/-! ## Claim theorems -/

/-- C1: every stored announcement with no `starts_at` and an `expires_at`
strictly after the evaluation instant appears in ListActive; and an
announcement created without a `startsAt` argument (key absent or null)
has no `starts_at`, so it appears in ListActive at every instant before
its expiration. -/
theorem C1_no_starts_future_expiry_listed :
    (∀ (now : Int) (store : Store) (a : Announcement), a ∈ store →
        a.starts_at = none → now < a.expires_at →
        toOut a ∈ get_active_announcements now store) ∧
    (∀ (te : List String) (u : Option String) (b : Body) (now : Int)
        (store : Store) (out : AnnouncementOut),
        (b.starts_at = none ∨ b.starts_at = some none) →
        (create_announcement te u b now store).1 = .ok out →
        out.starts_at = none ∧
        ∀ t : Int, t < out.expires_at →
          out ∈ get_active_announcements t
            (create_announcement te u b now store).2) := by
  constructor
  · intro now store a ha h1 h2
    apply mem_active_of ha
    simp [activeQuery, h1, h2]
  · intro te u b now store out hb h
    rcases create_ok_inv h with
      ⟨s, texp, st, _, _, _, _, hps, _, hout, hstore⟩
    have hraw : b.starts_at.bind (fun v => v) = none := by
      rcases hb with hb | hb <;> rw [hb] <;> rfl
    rw [hraw] at hps
    have hst : st = none := by
      have hps2 : (Except.ok none : Except String (Option Int)) =
          .ok st := hps
      simpa using hps2.symm
    subst hst
    constructor
    · rw [hout]; rfl
    · intro t ht
      rw [hout] at ht ⊢
      rw [hstore]
      refine mem_active_of (List.mem_append_right _ ?_) ?_
      · exact List.mem_singleton_self _
      · simpa [activeQuery, toOut] using ht

/-- C2: an announcement whose `expires_at` is at or before the evaluation
instant never appears in ListActive, whatever its `starts_at`; an
announcement whose `starts_at` is strictly after the instant never
appears either, even with an unexpired `expires_at`. -/
theorem C2_expired_or_future_start_excluded :
    ∀ (now : Int) (store : Store) (a : Announcement), a ∈ store →
      (a.expires_at ≤ now →
        toOut a ∉ get_active_announcements now store) ∧
      (∀ t : Int, a.starts_at = some t → now < t →
        toOut a ∉ get_active_announcements now store) := by
  intro now store a _
  constructor
  · intro h1
    apply not_mem_active_of
    cases hsa : a.starts_at <;> simp [activeQuery, hsa] <;> omega
  · intro t hsa h2
    apply not_mem_active_of
    simp [activeQuery, hsa]
    omega

/-- C3 counterexample: the empty string is a present `expiresAt` value
that does not parse as a date-time (`fromisoformat "" = none`), yet
Create rejects it with "Expiration is required", not
"Invalid datetime format": `parse_dt` treats the empty string as falsy
and returns `None` before ever attempting to parse it. -/
theorem C3_empty_expires_counterexample :
    fromisoformat "" = none ∧
    (create_announcement ["t"] (some "t")
        { message := some (some "hi"), starts_at := none,
          expires_at := some (some "") } 0 []).1 =
      .err 400 "Expiration is required" ∧
    (Resp.err 400 "Expiration is required" : Resp AnnouncementOut) ≠
      .err 400 "Invalid datetime format" := by
  refine ⟨rfl, ?_, by decide⟩
  rfl

/-- C3 (amended): with a valid credential, Create fails with
"Message is required" when the message key is absent or the message
strips to empty; with "Expiration is required" when `expiresAt` is
absent, null, or the empty string; with "Invalid datetime format" when
`expiresAt` is a present non-empty string that does not parse; and with
"Invalid datetime format" when a present `startsAt` is a non-empty
string that does not parse (while `expiresAt` is valid). -/
theorem C3_create_validation (teachers : List String) (u : Option String)
    (hreq : require_teacher teachers u = none) :
    (∀ (b : Body) (now : Int) (store : Store), b.message = none →
        (create_announcement teachers u b now store).1 =
          .err 400 "Message is required") ∧
    (∀ (b : Body) (now : Int) (store : Store) (s : String),
        b.message = some (some s) → strip s = "" →
        (create_announcement teachers u b now store).1 =
          .err 400 "Message is required") ∧
    (∀ (b : Body) (now : Int) (store : Store) (s : String),
        b.message = some (some s) → strip s ≠ "" →
        (b.expires_at = none ∨ b.expires_at = some none ∨
         b.expires_at = some (some "")) →
        (create_announcement teachers u b now store).1 =
          .err 400 "Expiration is required") ∧
    (∀ (b : Body) (now : Int) (store : Store) (s e : String),
        b.message = some (some s) → strip s ≠ "" →
        b.expires_at = some (some e) → e ≠ "" → fromisoformat e = none →
        (create_announcement teachers u b now store).1 =
          .err 400 "Invalid datetime format") ∧
    (∀ (b : Body) (now : Int) (store : Store) (s t : String) (texp : Int),
        b.message = some (some s) → strip s ≠ "" →
        parse_dt (b.expires_at.bind (fun v => v)) = .ok (some texp) →
        b.starts_at = some (some t) → t ≠ "" → fromisoformat t = none →
        (create_announcement teachers u b now store).1 =
          .err 400 "Invalid datetime format") := by
  refine ⟨?_, ?_, ?_, ?_, ?_⟩
  · intro b now store hm
    rw [create_msg_absent hreq hm]
  · intro b now store s hm hst
    rw [create_msg_empty hreq hm hst]
  · intro b now store s hm hst hor
    have hp : parse_dt (b.expires_at.bind (fun v => v)) = .ok none := by
      rcases hor with h | h | h <;> rw [h] <;> rfl
    rw [create_expires_missing hreq hm hst hp]
  · intro b now store s e hm hst he hene hfe
    have hp : parse_dt (b.expires_at.bind (fun v => v)) =
        .error "Invalid datetime format" := by
      rw [he]
      simp [parse_dt, hene, hfe]
    rw [create_expires_err hreq hm hst hp]
  · intro b now store s t texp hm hst hpe hsa htne hft
    have hp : parse_dt (b.starts_at.bind (fun v => v)) =
        .error "Invalid datetime format" := by
      rw [hsa]
      simp [parse_dt, htne, hft]
    rw [create_starts_err hreq hm hst hpe hp]

/-- C4: any Update call that fails with an HTTP error (in particular
every `InvalidArgument`) leaves the store — hence the target record and
every one of its fields, `updated_at` included — unchanged. -/
theorem C4_failed_update_is_atomic (te : List String) (u : Option String)
    (aid : String) (b : Body) (now : Int) (store : Store)
    (c : Nat) (d : String)
    (h : (update_announcement te u aid b now store).1 = .err c d) :
    (update_announcement te u aid b now store).2 = store := by
  rcases update_post te u aid b now store with h2 | ⟨_, out, hok⟩
  · exact h2
  · rw [h] at hok
    simp at hok

/-- C5: ListActive returns its results sorted ascending by `created_at`;
with a valid credential ListAll returns every announcement (a permutation
of the whole store), sorted descending by `created_at`. -/
theorem C5_result_ordering :
    (∀ (now : Int) (store : Store),
        List.Sorted
          (fun x y : AnnouncementOut => x.created_at ≤ y.created_at)
          (get_active_announcements now store)) ∧
    (∀ (te : List String) (u : Option String) (store : Store),
        require_teacher te u = none →
        list_announcements te u store =
          .ok ((store.insertionSort byCreatedDesc).map toOut) ∧
        List.Sorted (fun x y : AnnouncementOut => y.created_at ≤ x.created_at)
          ((store.insertionSort byCreatedDesc).map toOut) ∧
        ((store.insertionSort byCreatedDesc).map toOut).Perm
          (store.map toOut)) := by
  constructor
  · intro now store
    exact List.Pairwise.map toOut (fun a b hab => hab)
      (List.sorted_insertionSort byCreatedAsc _)
  · intro te u store hreq
    refine ⟨?_, ?_, ?_⟩
    · unfold list_announcements
      rw [hreq]
    · exact List.Pairwise.map toOut (fun a b hab => hab)
        (List.sorted_insertionSort byCreatedDesc _)
    · exact List.Perm.map toOut (List.perm_insertionSort byCreatedDesc store)

/-- C6: in every store state reachable from the empty collection through
service calls, each announcement's id is `"ann-"` followed by its
creation instant, the ids are pairwise distinct (any two distinct
records have different ids), and no Update call ever changes any
record's id. -/
theorem C6_id_format_unique_immutable :
    (∀ s : Store, Reachable s →
        (∀ a ∈ s, a._id = "ann-" ++ toString a.created_at) ∧
        (s.map (fun a => a._id)).Nodup ∧
        ∀ a ∈ s, ∀ p ∈ s, p ≠ a → p._id ≠ a._id) ∧
    (∀ (te : List String) (u : Option String) (aid : String) (b : Body)
        (now : Int) (store : Store),
        ((update_announcement te u aid b now store).2).map (fun a => a._id) =
          store.map (fun a => a._id)) := by
  constructor
  · intro s hs
    have hg := goodStore_reachable hs
    refine ⟨hg.2, hg.1, ?_⟩
    intro a ha p hp hne heq
    exact hne (List.inj_on_of_nodup_map hg.1 hp ha heq)
  · intro te u aid b now store
    rcases update_post te u aid b now store with h | ⟨⟨us, h⟩, _⟩
    · rw [h]
    · rw [h, update_one_ids]

/-- C7: a successful Update whose patch contains only `message` maps the
store so that only the target record's `message` and `updated_at` change
(its `starts_at`, `expires_at`, `created_at` and all other records are
untouched); moreover Update never changes any record's `created_at`,
Create leaves all pre-existing records in place, and Delete only removes
records — so `created_at` is never modified after creation. -/
theorem C7_message_only_update_frame (te : List String) (u : Option String)
    (aid : String) (b : Body) (now : Int) (store : Store) (d : Announcement)
    (m : String)
    (hreq : require_teacher te u = none)
    (hm : b.message = some (some m)) (hs : b.starts_at = none)
    (he : b.expires_at = none) (hmne : strip m ≠ "")
    (hfind : find_one aid store = some d) :
    (update_announcement te u aid b now store =
      (.ok (toOut { d with message := strip m, updated_at := now }),
       store.map (fun x => if x._id == aid
         then { x with message := strip m, updated_at := now } else x))) ∧
    (∀ (te2 : List String) (u2 : Option String) (aid2 : String) (b2 : Body)
        (now2 : Int) (s2 : Store),
        ((update_announcement te2 u2 aid2 b2 now2 s2).2).map
            (fun x => (x._id, x.created_at)) =
          s2.map (fun x => (x._id, x.created_at))) ∧
    (∀ (te3 : List String) (u3 : Option String) (b3 : Body) (now3 : Int)
        (s3 : Store), ∀ a ∈ s3,
        a ∈ (create_announcement te3 u3 b3 now3 s3).2) ∧
    (∀ (te4 : List String) (u4 : Option String) (aid4 : String)
        (s4 : Store), ∀ a ∈ (delete_announcement te4 u4 aid4 s4).2,
        a ∈ s4) := by
  refine ⟨?_, ?_, ?_, ?_⟩
  · have hvm : validate_message b.message = .ok (some (strip m)) := by
      rw [hm]
      simp [validate_message, hmne]
    have hvs : validate_starts b.starts_at = .ok none := by rw [hs]; rfl
    have hve : validate_expires b.expires_at = .ok none := by rw [he]; rfl
    rw [update_success hreq hfind hvm hvs hve]
    rfl
  · intro te2 u2 aid2 b2 now2 s2
    rcases update_post te2 u2 aid2 b2 now2 s2 with h | ⟨⟨us, h⟩, _⟩
    · rw [h]
    · rw [h, update_one_pairs]
  · intro te3 u3 b3 now3 s3 a ha
    rcases create_post_store te3 u3 b3 now3 s3 with h | ⟨doc, _, _, _, h⟩
    · rw [h]; exact ha
    · rw [h]; exact List.mem_append_left _ ha
  · intro te4 u4 aid4 s4 a ha
    rcases delete_post te4 u4 aid4 s4 with h | h
    · rw [h] at ha; exact ha
    · rw [h] at ha
      exact (delete_one_sublist aid4 s4).subset ha

/-- C8: with a credential that is missing, empty, or not in the teacher
store, ListAll fails with 401 and Create, Update and Delete fail with
401 while leaving the store unchanged.  (ListActive is credential-free by
construction: `get_active_announcements` takes no credential and returns
a plain list.) -/
theorem C8_unauthorized_rejected (teachers : List String)
    (username : Option String)
    (h : username = none ∨ username = some "" ∨
         ∃ u, username = some u ∧ u ∉ teachers) :
    (∀ store : Store,
        list_announcements teachers username store =
          .err 401 (authDetail teachers username)) ∧
    (∀ (b : Body) (now : Int) (store : Store),
        create_announcement teachers username b now store =
          (.err 401 (authDetail teachers username), store)) ∧
    (∀ (aid : String) (b : Body) (now : Int) (store : Store),
        update_announcement teachers username aid b now store =
          (.err 401 (authDetail teachers username), store)) ∧
    (∀ (aid : String) (store : Store),
        delete_announcement teachers username aid store =
          (.err 401 (authDetail teachers username), store)) := by
  rcases require_teacher_bad h with ⟨d, hd⟩
  have hda : authDetail teachers username = d := by
    unfold authDetail
    rw [hd]
    rfl
  rw [hda]
  refine ⟨?_, ?_, ?_, ?_⟩
  · intro store
    unfold list_announcements
    rw [hd]
  · intro b now store
    exact create_auth hd b now store
  · intro aid b now store
    exact update_auth hd aid b now store
  · intro aid store
    exact delete_auth hd aid store

/-- C9: Delete on an id not in the store fails with 404 and leaves the
store unchanged; Delete on a stored id succeeds and removes the record,
after which Update and Delete on the same id both fail with 404. -/
theorem C9_delete_then_notfound (teachers : List String) (u : Option String)
    (hreq : require_teacher teachers u = none) :
    (∀ (aid : String) (store : Store), find_one aid store = none →
        delete_announcement teachers u aid store =
          (.err 404 "Announcement not found", store)) ∧
    (∀ (aid : String) (store : Store) (a : Announcement),
        (store.map (fun x => x._id)).Nodup → a ∈ store → a._id = aid →
        (delete_announcement teachers u aid store).1 =
          .ok "Announcement deleted" ∧
        find_one aid (delete_announcement teachers u aid store).2 = none ∧
        (∀ (b : Body) (now : Int),
          (update_announcement teachers u aid b now
              (delete_announcement teachers u aid store).2).1 =
            .err 404 "Announcement not found") ∧
        (delete_announcement teachers u aid
            (delete_announcement teachers u aid store).2).1 =
          .err 404 "Announcement not found") := by
  constructor
  · intro aid store hf
    exact delete_notfound hreq hf
  · intro aid store a hnd ha haid
    have hfind : find_one aid store ≠ none := by
      unfold find_one
      rw [Ne, List.find?_eq_none]
      intro hall
      exact hall a ha (by rw [haid, beq_self_eq_true])
    have hz : (delete_one aid store).2 ≠ 0 := fun h0 =>
      hfind ((delete_one_zero_iff aid store).mp h0)
    have hpost : (delete_announcement teachers u aid store).2 =
        (delete_one aid store).1 := by
      rw [delete_found hreq hz]
    have hfn : find_one aid (delete_announcement teachers u aid store).2 =
        none := by
      rw [hpost]
      exact delete_one_find hnd
    refine ⟨by rw [delete_found hreq hz], hfn, ?_, ?_⟩
    · intro b now
      rw [update_notfound hreq hfn]
    · rw [delete_notfound hreq hfn]

/-- C10: with a valid credential, Create on a body whose `message` key is
present but null is an unhandled exception (`.strip()` called on `None`),
not an `InvalidArgument`, while Update on a patch with a null `message`
returns the 400 "Message is required" error. -/
theorem C10_null_message_create_crashes (teachers : List String)
    (u : Option String) (hreq : require_teacher teachers u = none) :
    (∀ (b : Body) (now : Int) (store : Store), b.message = some none →
        create_announcement teachers u b now store = (.crash, store)) ∧
    (∀ (aid : String) (b : Body) (now : Int) (store : Store)
        (d : Announcement), b.message = some none →
        find_one aid store = some d →
        update_announcement teachers u aid b now store =
          (.err 400 "Message is required", store)) := by
  constructor
  · intro b now store hm
    exact create_null_message hreq hm now store
  · intro aid b now store d hm hf
    apply update_msg_err hreq hf
    rw [hm]
    rfl

/-! ## Concrete witnesses -/

/-- Concrete instance of C1. -/
theorem C1_witness :
    toOut wAnn ∈ get_active_announcements 50 [wAnn] ∧
    (toOut { _id := "ann-5", message := "hi", starts_at := none,
             expires_at := 20990101000000, created_at := 5,
             updated_at := 5 }).starts_at = none :=
  ⟨C1_no_starts_future_expiry_listed.1 50 [wAnn] wAnn
     (List.mem_singleton_self _) rfl (by decide),
   (C1_no_starts_future_expiry_listed.2 ["t"] (some "t")
     { message := some (some "hi"), starts_at := none,
       expires_at := some (some "2099-01-01T00:00:00") } 5 []
     (toOut { _id := "ann-5", message := "hi", starts_at := none,
              expires_at := 20990101000000, created_at := 5,
              updated_at := 5 })
     (Or.inl rfl) (by decide)).1⟩

/-- Concrete instance of C2. -/
theorem C2_witness :
    toOut wAnn ∉ get_active_announcements 150 [wAnn] ∧
    toOut wAnn2 ∉ get_active_announcements 20 [wAnn2] :=
  ⟨(C2_expired_or_future_start_excluded 150 [wAnn] wAnn
      (List.mem_singleton_self _)).1 (by decide),
   (C2_expired_or_future_start_excluded 20 [wAnn2] wAnn2
      (List.mem_singleton_self _)).2 50 rfl (by decide)⟩

/-- Concrete instance of the amended C3. -/
theorem C3_witness :
    (create_announcement ["t"] (some "t")
        { message := none, starts_at := none, expires_at := none } 0 []).1 =
      .err 400 "Message is required" ∧
    (create_announcement ["t"] (some "t")
        { message := some (some " "), starts_at := none,
          expires_at := none } 0 []).1 = .err 400 "Message is required" ∧
    (create_announcement ["t"] (some "t")
        { message := some (some "hi"), starts_at := none,
          expires_at := none } 0 []).1 =
      .err 400 "Expiration is required" ∧
    (create_announcement ["t"] (some "t")
        { message := some (some "hi"), starts_at := none,
          expires_at := some (some "nope") } 0 []).1 =
      .err 400 "Invalid datetime format" ∧
    (create_announcement ["t"] (some "t")
        { message := some (some "hi"),
          starts_at := some (some "nope"),
          expires_at := some (some "2099-01-01T00:00:00") } 0 []).1 =
      .err 400 "Invalid datetime format" :=
  have hreq : require_teacher ["t"] (some "t") = none := rfl
  ⟨(C3_create_validation ["t"] (some "t") hreq).1 _ 0 [] rfl,
   (C3_create_validation ["t"] (some "t") hreq).2.1 _ 0 [] " " rfl
     (by decide),
   (C3_create_validation ["t"] (some "t") hreq).2.2.1 _ 0 [] "hi" rfl
     (by decide) (Or.inl rfl),
   (C3_create_validation ["t"] (some "t") hreq).2.2.2.1 _ 0 [] "hi" "nope"
     rfl (by decide) rfl (by decide) rfl,
   (C3_create_validation ["t"] (some "t") hreq).2.2.2.2 _ 0 [] "hi" "nope"
     20990101000000 rfl (by decide) rfl rfl (by decide) rfl⟩

/-- Concrete instance of C4. -/
theorem C4_witness :
    (update_announcement ["t"] (some "t") "ann-5"
        { message := none, starts_at := none, expires_at := some none } 7
        [wAnn]).2 = [wAnn] :=
  C4_failed_update_is_atomic ["t"] (some "t") "ann-5"
    { message := none, starts_at := none, expires_at := some none } 7 [wAnn]
    400 "Expiration is required" (by decide)

/-- Concrete instance of C5. -/
theorem C5_witness :
    List.Sorted (fun x y : AnnouncementOut => x.created_at ≤ y.created_at)
      (get_active_announcements 50 [wAnn]) ∧
    list_announcements ["t"] (some "t") [wAnn] =
      .ok (([wAnn].insertionSort byCreatedDesc).map toOut) :=
  ⟨C5_result_ordering.1 50 [wAnn],
   (C5_result_ordering.2 ["t"] (some "t") [wAnn] rfl).1⟩

/-- Concrete instance of C6. -/
theorem C6_witness :
    (([] : Store).map (fun a => a._id)).Nodup ∧
    ((update_announcement ["t"] (some "t") "ann-5"
        { message := none, starts_at := none, expires_at := none } 0
        [wAnn]).2).map (fun a => a._id) = [wAnn].map (fun a => a._id) :=
  ⟨(C6_id_format_unique_immutable.1 [] Reachable.nil).2.1,
   C6_id_format_unique_immutable.2 ["t"] (some "t") "ann-5"
     { message := none, starts_at := none, expires_at := none } 0 [wAnn]⟩

/-- Concrete instance of C7. -/
theorem C7_witness :
    update_announcement ["t"] (some "t") "ann-5"
        { message := some (some " yo "), starts_at := none,
          expires_at := none } 7 [wAnn] =
      (.ok (toOut { wAnn with message := strip " yo ", updated_at := 7 }),
       [wAnn].map (fun x => if x._id == "ann-5"
         then { x with message := strip " yo ", updated_at := 7 } else x)) :=
  (C7_message_only_update_frame ["t"] (some "t") "ann-5"
     { message := some (some " yo "), starts_at := none,
       expires_at := none }
     7 [wAnn] wAnn " yo " rfl rfl rfl rfl (by decide) rfl).1

/-- Concrete instance of C8. -/
theorem C8_witness :
    list_announcements ["t"] none [wAnn] =
      .err 401 (authDetail ["t"] none) ∧
    create_announcement ["t"] (some "zz")
        { message := some (some "hi"), starts_at := none,
          expires_at := none } 0 [wAnn] =
      (.err 401 (authDetail ["t"] (some "zz")), [wAnn]) :=
  ⟨(C8_unauthorized_rejected ["t"] none (Or.inl rfl)).1 [wAnn],
   (C8_unauthorized_rejected ["t"] (some "zz")
      (Or.inr (Or.inr ⟨"zz", rfl, by decide⟩))).2.1 _ 0 [wAnn]⟩

/-- Concrete instance of C9. -/
theorem C9_witness :
    delete_announcement ["t"] (some "t") "ann-9" [wAnn] =
      (.err 404 "Announcement not found", [wAnn]) ∧
    (delete_announcement ["t"] (some "t") "ann-5" [wAnn]).1 =
      .ok "Announcement deleted" ∧
    find_one "ann-5"
        (delete_announcement ["t"] (some "t") "ann-5" [wAnn]).2 = none :=
  have hreq : require_teacher ["t"] (some "t") = none := rfl
  have h2 := (C9_delete_then_notfound ["t"] (some "t") hreq).2 "ann-5"
    [wAnn] wAnn (by decide) (List.mem_singleton_self _) rfl
  ⟨(C9_delete_then_notfound ["t"] (some "t") hreq).1 "ann-9" [wAnn] rfl,
   h2.1, h2.2.1⟩

/-- Concrete instance of C10. -/
theorem C10_witness :
    create_announcement ["t"] (some "t")
        { message := some none, starts_at := none,
          expires_at := some (some "2099-01-01T00:00:00") } 0 [] =
      (.crash, []) ∧
    update_announcement ["t"] (some "t") "ann-5"
        { message := some none, starts_at := none, expires_at := none } 7
        [wAnn] = (.err 400 "Message is required", [wAnn]) :=
  have hreq : require_teacher ["t"] (some "t") = none := rfl
  ⟨(C10_null_message_create_crashes ["t"] (some "t") hreq).1 _ 0 [] rfl,
   (C10_null_message_create_crashes ["t"] (some "t") hreq).2 "ann-5" _ 7
     [wAnn] wAnn rfl rfl⟩

end Announcements
